import Mathlib

/-
  Shallow embedding of the batching write-behind persistence pipeline of the
  Chatapp repository (src/src/core/message_buffer.py), together with the
  read-receipt handler (src/src/main.py, mark_read) and the group ownership
  routes (src/src/routes/group_routes.py).

  Modelling conventions:
  - wall-clock instants are integers (seconds); datetime.now(UTC) readings are
    supplied as oracle parameters (now, times);
  - the MongoDB collection is not modelled as a device: each retry attempt of
    the bulk insert receives an oracle value (AttemptOutcome) saying whether
    the chunk loop completed or raised at a given chunk index, and the model
    records which chunks were handed to insert_many;
  - machine integers do not overflow in the modelled ranges, so Nat and Int
    are used directly.
-/

namespace Chatapp

/-- Circuit breaker state, from class CircuitBreaker
(src/src/core/message_buffer.py lines 16 to 22).  The constructor defaults
(threshold 5, timeout 30) are overridden at the single construction site,
MessageBuffer.__init__, which passes threshold 3 and timeout 60. -/
structure CircuitBreaker where
  failure_count : Nat
  failure_threshold : Nat
  reset_timeout : Int
  last_failure_time : Option Int
  is_open : Bool
deriving Repr, DecidableEq

/-- CircuitBreaker.record_failure (lines 24 to 28): increment failure_count,
stamp last_failure_time with the current time, and set is_open once
failure_count reaches the threshold. -/
def CircuitBreaker.record_failure (cb : CircuitBreaker) (now : Int) : CircuitBreaker :=
  let cb' : CircuitBreaker :=
    { cb with failure_count := cb.failure_count + 1, last_failure_time := some now }
  if cb'.failure_count ≥ cb'.failure_threshold then { cb' with is_open := true } else cb'

/-- CircuitBreaker.record_success (lines 30 to 32): reset the count and close. -/
def CircuitBreaker.record_success (cb : CircuitBreaker) : CircuitBreaker :=
  { cb with failure_count := 0, is_open := false }

/-- CircuitBreaker.can_proceed (lines 34 to 43).  Not a pure query: when the
breaker is open and strictly more than reset_timeout seconds have passed since
last_failure_time, it resets failure_count to 0, clears is_open, and returns
true.  In the code is_open implies last_failure_time is set (it is only set by
record_failure, which stamps the time first); getD 0 is a total-function
default for the impossible None case. -/
def CircuitBreaker.can_proceed (cb : CircuitBreaker) (now : Int) : CircuitBreaker × Bool :=
  if cb.is_open = false then (cb, true)
  else if now - cb.last_failure_time.getD 0 > cb.reset_timeout then
    ({ cb with failure_count := 0, is_open := false }, true)
  else (cb, false)

/-- The stats dictionary of MessageBuffer.__init__ (lines 55 to 61). -/
structure Stats where
  total_messages : Nat
  successful_flushes : Nat
  failed_flushes : Nat
  retry_count : Nat
  circuit_breaker_trips : Nat
deriving Repr, DecidableEq

/-- Exception classes relevant to the backoff decorator on
_perform_bulk_insert (lines 72 to 77).  The first four are the transient
pymongo classes listed in the decorator tuple (ConnectionFailure,
OperationFailure, ServerSelectionTimeoutError, NetworkTimeout); otherError
stands for any exception outside that tuple (for example a validation-class
error), which backoff does not retry. -/
inductive MongoError
  | connectionFailure
  | operationFailure
  | serverSelectionTimeout
  | networkTimeout
  | otherError
deriving Repr, DecidableEq

/-- Whether the backoff decorator retries this exception class: exactly the
four classes in the decorator tuple. -/
def MongoError.retriable : MongoError → Bool
  | .otherError => false
  | _ => true

/-- Oracle outcome of one attempt of the _perform_bulk_insert body, past the
breaker gate: either the whole chunk loop completed (ok), or an exception of
class e was raised while issuing chunk number j (0-indexed); chunks before j
had already been inserted.  j = 0 also covers a failure of
get_messages_collection before any chunk was issued. -/
inductive AttemptOutcome
  | ok
  | failAt (j : Nat) (e : MongoError)
deriving Repr, DecidableEq

/-- The chunking loop of _perform_bulk_insert (lines 86 to 95):
range(0, len(messages), 5) slicing with chunk_size = 5, so each chunk is the
next five records and the last chunk holds the remainder.  Written with
explicit five-element patterns (rather than take 5 / drop 5) so that the
function is structurally recursive and reduces definitionally. -/
def chunksOf5 {M : Type} : List M → List (List M)
  | [] => []
  | a :: b :: c :: d :: e :: rest => [a, b, c, d, e] :: chunksOf5 rest
  | l => [l]

/-- Result of one call of the decorated function body: a normal return value
or a raised exception. -/
inductive BodyResult
  | ret (b : Bool)
  | exc (e : MongoError)
deriving Repr, DecidableEq

/-- One execution of the body of _perform_bulk_insert (lines 78 to 102),
before the backoff decorator is applied.  Returns the updated breaker, the
updated stats, the chunks that were successfully handed to insert_many, and
the outcome.  Gate closed: return False with no I/O (lines 79 to 81).  All
chunks inserted: record_success and return True (lines 96 to 97).  Exception:
record_failure, bump the circuit_breaker_trips counter, re-raise
(lines 98 to 102). -/
def bulkInsertBody {M : Type} (cb : CircuitBreaker) (stats : Stats) (tNow : Int)
    (msgs : List M) (out : AttemptOutcome) :
    CircuitBreaker × Stats × List (List M) × BodyResult :=
  let gate := cb.can_proceed tNow
  if gate.2 = false then (gate.1, stats, [], .ret false)
  else
    match out with
    | .ok => (gate.1.record_success, stats, chunksOf5 msgs, .ret true)
    | .failAt j e =>
        (gate.1.record_failure tNow,
         { stats with circuit_breaker_trips := stats.circuit_breaker_trips + 1 },
         (chunksOf5 msgs).take j,
         .exc e)

/-- max_tries=2 in the backoff decorator (line 75). -/
def backoffMaxTries : Nat := 2

/-- max_time=10 (seconds) in the backoff decorator (line 76). -/
def backoffMaxTime : Int := 10

/-- Result of running the decorated _perform_bulk_insert: final breaker and
stats, all chunks delivered to the store across attempts, the final outcome,
and how many attempts were made. -/
structure RunResult (M : Type) where
  cb : CircuitBreaker
  stats : Stats
  sent : List (List M)
  result : BodyResult
  attempts : Nat
deriving Repr, DecidableEq

/-- The retry loop of the backoff.on_exception decorator specialised to the
configuration on _perform_bulk_insert: attempt i runs the body at wall-clock
time (times i); a raised exception is retried only when its class is in the
decorator tuple, tries remain below max_tries, and the elapsed time at the
next attempt is still below max_time (the 10 second hard deadline).  The
exponential backoff waits themselves are folded into the oracle times.
triesLeft starts at backoffMaxTries, so the fuel 0 branch is dead code. -/
def backoffRun {M : Type} (cb : CircuitBreaker) (stats : Stats) (sent : List (List M))
    (start : Int) (times : Nat → Int) (outs : Nat → AttemptOutcome)
    (msgs : List M) (i : Nat) : Nat → RunResult M
  | 0 => ⟨cb, stats, sent, .ret false, i⟩
  | t + 1 =>
    match bulkInsertBody cb stats (times i) msgs (outs i) with
    | (cb1, st1, sentNow, .ret b) => ⟨cb1, st1, sent ++ sentNow, .ret b, i + 1⟩
    | (cb1, st1, sentNow, .exc e) =>
      if e.retriable = true ∧ 0 < t ∧ times (i + 1) - start < backoffMaxTime then
        backoffRun cb1 st1 (sent ++ sentNow) start times outs msgs (i + 1) t
      else ⟨cb1, st1, sent ++ sentNow, .exc e, i + 1⟩

/-- The decorated _perform_bulk_insert (lines 72 to 102): up to
backoffMaxTries attempts starting at attempt index 0. -/
def perform_bulk_insert {M : Type} (cb : CircuitBreaker) (stats : Stats)
    (times : Nat → Int) (outs : Nat → AttemptOutcome) (msgs : List M) : RunResult M :=
  backoffRun cb stats [] (times 0) times outs msgs 0 backoffMaxTries

/-- MessageBuffer state (lines 45 to 61).  Omitted relative to the Python
object: the asyncio lock (modelled at the call sites, see add_message), the
last_flush timestamp and the WriteConcern handle (neither influences any
control flow in the module), and the logger. -/
structure MessageBuffer (M : Type) where
  messages : List M
  batch_size : Nat
  flush_interval : Int
  max_retries : Nat
  circuit_breaker : CircuitBreaker
  stats : Stats
deriving Repr, DecidableEq

/-- MessageBuffer.flush (lines 104 to 131), run by a caller that does not
already hold the buffer lock, so the initial acquire succeeds.  Under the
lock: an empty buffer is a no-op; otherwise the pending list is snapshotted
and cleared, the bulk insert runs, and on success successful_flushes is
bumped; on a False return (breaker open) failed_flushes is bumped and the
snapshot is appended back; on an exception failed_flushes is bumped, the
snapshot is appended back, and batch_size becomes max(10, batch_size // 2).
Also returns the chunks the store received. -/
def MessageBuffer.flush {M : Type} (buf : MessageBuffer M)
    (times : Nat → Int) (outs : Nat → AttemptOutcome) :
    MessageBuffer M × List (List M) :=
  if buf.messages.isEmpty = true then (buf, [])
  else
    let messages_to_flush := buf.messages
    let r := perform_bulk_insert buf.circuit_breaker buf.stats times outs messages_to_flush
    match r.result with
    | .ret true =>
        ({ buf with messages := [],
                    circuit_breaker := r.cb,
                    stats := { r.stats with
                               successful_flushes := r.stats.successful_flushes + 1 } },
         r.sent)
    | .ret false =>
        ({ buf with messages := [] ++ messages_to_flush,
                    circuit_breaker := r.cb,
                    stats := { r.stats with
                               failed_flushes := r.stats.failed_flushes + 1 } },
         r.sent)
    | .exc _ =>
        ({ buf with messages := [] ++ messages_to_flush,
                    circuit_breaker := r.cb,
                    stats := { r.stats with
                               failed_flushes := r.stats.failed_flushes + 1 },
                    batch_size := max 10 (buf.batch_size / 2) },
         r.sent)

/-- Result of add_message.  The Python asyncio.Lock is not reentrant:
add_message executes inside async with self.lock, and when the size check
fires it awaits self.flush(), whose own async with self.lock can never
acquire (the lock is held by the very task that is awaiting).  The deadlock
constructor carries the buffer state at the moment the task blocks forever;
done is the normal return below the threshold. -/
inductive AddResult (M : Type)
  | done (buf : MessageBuffer M)
  | deadlock (buf : MessageBuffer M)
deriving Repr, DecidableEq

/-- Whether an add_message call blocked forever on the nested flush. -/
def addOutcomeIsDeadlock {M : Type} : AddResult M → Bool
  | .done _ => false
  | .deadlock _ => true

/-- The buffer state carried by an AddResult (for a deadlocked add, the state
at the instant the task blocked). -/
def addOutcomeBuf {M : Type} : AddResult M → MessageBuffer M
  | .done b => b
  | .deadlock b => b

/-- MessageBuffer.add_message (lines 63 to 70): under the lock, append the
record, bump total_messages, and when the resulting size reaches batch_size
invoke flush, which deadlocks on the non-reentrant lock (see AddResult). -/
def MessageBuffer.add_message {M : Type} (buf : MessageBuffer M) (m : M) : AddResult M :=
  let buf1 : MessageBuffer M :=
    { buf with messages := buf.messages ++ [m],
               stats := { buf.stats with total_messages := buf.stats.total_messages + 1 } }
  if buf1.messages.length ≥ buf1.batch_size then .deadlock buf1 else .done buf1

/-- Sequential adds, stopping at the first deadlocked add (the task never
returns, so no further adds by that task happen). -/
def addAll {M : Type} (buf : MessageBuffer M) : List M → AddResult M
  | [] => .done buf
  | m :: rest =>
    match buf.add_message m with
    | .done b => addAll b rest
    | .deadlock b => .deadlock b

/-- One iteration of the loop body of start_periodic_flush
(lines 133 to 143): after the sleep, if the breaker lets it proceed (note
can_proceed may itself reset an open breaker), flush; then once more than 5
cumulative successful flushes have been observed, grow batch_size by 5 capped
at 50.  now is the wall-clock reading of this can_proceed call; times and
outs drive the flush inside the iteration. -/
def MessageBuffer.periodic_flush_step {M : Type} (buf : MessageBuffer M)
    (now : Int) (times : Nat → Int) (outs : Nat → AttemptOutcome) : MessageBuffer M :=
  let gate := buf.circuit_breaker.can_proceed now
  if gate.2 = true then
    let buf1 : MessageBuffer M := { buf with circuit_breaker := gate.1 }
    let buf2 := (buf1.flush times outs).1
    if buf2.stats.successful_flushes > 5 then
      { buf2 with batch_size := min 50 (buf2.batch_size + 5) }
    else buf2
  else { buf with circuit_breaker := gate.1 }

/-- The global buffer instance (lines 156 to 161): batch_size 10,
flush_interval 2.0 seconds, max_retries 2; MessageBuffer.__init__ then builds
the breaker with failure_threshold 3 and reset_timeout 60 (line 53) and
zeroes the stats (lines 55 to 61). -/
def message_buffer (M : Type) : MessageBuffer M :=
  { messages := []
    batch_size := 10
    flush_interval := 2
    max_retries := 2
    circuit_breaker :=
      { failure_count := 0
        failure_threshold := 3
        reset_timeout := 60
        last_failure_time := none
        is_open := false }
    stats :=
      { total_messages := 0
        successful_flushes := 0
        failed_flushes := 0
        retry_count := 0
        circuit_breaker_trips := 0 } }

/-- Events that can change batch_size: an externally driven flush (the
shutdown path and the one inside add_message in intent), and one scheduler
iteration of start_periodic_flush.  Each event carries the time and attempt
oracles it runs under. -/
inductive BufferEvent
  | flushEv (times : Nat → Int) (outs : Nat → AttemptOutcome)
  | schedEv (now : Int) (times : Nat → Int) (outs : Nat → AttemptOutcome)

/-- Apply one event to the buffer. -/
def applyEvent {M : Type} (buf : MessageBuffer M) : BufferEvent → MessageBuffer M
  | .flushEv times outs => (buf.flush times outs).1
  | .schedEv now times outs => buf.periodic_flush_step now times outs

/-- Apply a sequence of events in order. -/
def runEvents {M : Type} (buf : MessageBuffer M) (evs : List BufferEvent) : MessageBuffer M :=
  evs.foldl applyEvent buf

/-! Persisted message mutation: the mark_read handler of src/src/main.py
(lines 267 to 302). -/

/-- The persisted message fields that mark_read touches or reads
(src/src/main.py: messages are built in send_message with a type field of
value "direct" or "group"; group messages carry group_id).  group_id is
modelled as always present; the handler reads it only when type is "group". -/
structure StoredMessage where
  from_user_id : String
  type : String
  group_id : String
  status : String
  read_by : List String
  deleted_for : List String
deriving Repr, DecidableEq

/-- MongoDB addToSet on an array field: append the value unless already
present. -/
def addToSet (l : List String) (x : String) : List String :=
  if x ∈ l then l else l ++ [x]

/-- mark_read (src/src/main.py lines 267 to 302) on a message found in the
store: update_one applies, in one update document, set status to "read"
(unconditionally, whatever the message type) and addToSet the reader id into
read_by; the handler then re-reads the message and emits a read-receipt
update to the group room for group messages and otherwise to the user room of
from_user_id.  Returns the updated message and the room the update is
broadcast to. -/
def StoredMessage.mark_read (msg : StoredMessage) (user_id : String) :
    StoredMessage × String :=
  let msg' : StoredMessage :=
    { msg with status := "read", read_by := addToSet msg.read_by user_id }
  let room :=
    if msg'.type = "group" then "group_" ++ msg'.group_id
    else "user_" ++ msg'.from_user_id
  (msg', room)

/-! Group ownership routes (src/src/routes/group_routes.py). -/

/-- The group document fields used by the delete and remove routes. -/
structure Group where
  name : String
  member_ids : List String
  created_by : String
deriving Repr, DecidableEq

/-- Outcome of DELETE /groups/group_id. -/
inductive DeleteGroupResult
  | groupNotFound
  | deleted
deriving Repr, DecidableEq

/-- delete_group (src/src/routes/group_routes.py lines 90 to 110).  The route
takes only the group id: it looks the group up, 404s when absent, and
otherwise deletes the group and its messages.  It has no parameter carrying
the caller identity and performs no authorization check. -/
def delete_group (g : Option Group) : DeleteGroupResult × Option Group :=
  match g with
  | none => (.groupNotFound, none)
  | some _ => (.deleted, none)

/-- The HTTP request to the delete route as issued by an arbitrary caller:
the route signature admits no caller or authentication parameter, so every
request runs the identical delete_group call whatever the caller. -/
def delete_group_request (caller : String) (g : Option Group) :
    DeleteGroupResult × Option Group :=
  let _ := caller
  delete_group g

/-- Outcome of POST /groups/group_id/remove. -/
inductive RemoveResult
  | groupNotFound
  | userNotInGroup
  | onlyCreatorCanRemove
  | creatorCannotLeave
  | removed (removed_by : String)
deriving Repr, DecidableEq

/-- remove_from_group (src/src/routes/group_routes.py lines 112 to 144):
404 when the group is absent or the user is not a member; with admin_id
supplied, 403 unless admin_id is the creator; without admin_id, the creator
may not leave, any other member removes themselves.  The pull removes every
occurrence of the user id; the modified_count = 0 branch is unreachable here
because membership was just checked. -/
def remove_from_group (g : Option Group) (user_id : String) (admin_id : Option String) :
    RemoveResult × Option Group :=
  match g with
  | none => (.groupNotFound, none)
  | some grp =>
    if user_id ∈ grp.member_ids then
      match admin_id with
      | some a =>
        if a = grp.created_by then
          (.removed a, some { grp with member_ids := grp.member_ids.filter (fun x => x != user_id) })
        else (.onlyCreatorCanRemove, some grp)
      | none =>
        if user_id = grp.created_by then (.creatorCannotLeave, some grp)
        else (.removed user_id,
              some { grp with member_ids := grp.member_ids.filter (fun x => x != user_id) })
    else (.userNotInGroup, some grp)

/-- A run of consecutive record_failure calls at the given instants. -/
def failTimes (cb : CircuitBreaker) (ts : List Int) : CircuitBreaker :=
  ts.foldl (fun c t => c.record_failure t) cb

/-! Concrete states and oracles used by the witness theorems. -/

/-- A concrete open breaker: three failures recorded, the last at instant
100, built with the thresholds of MessageBuffer.__init__. -/
def cbOpenW : CircuitBreaker :=
  { failure_count := 3
    failure_threshold := 3
    reset_timeout := 60
    last_failure_time := some (100 : Int)
    is_open := true }

/-- The global buffer over Nat records, holding ten pending records. -/
def bufTenW : MessageBuffer Nat :=
  { message_buffer Nat with messages := [0, 1, 2, 3, 4, 5, 6, 7, 8, 9] }

/-- The global buffer over Nat records with three pending records and an
open breaker whose cooldown has not elapsed at the probe instants used. -/
def bufOpenW : MessageBuffer Nat :=
  { message_buffer Nat with messages := [1, 2, 3], circuit_breaker := cbOpenW }

/-- Attempt times one second apart, well inside the 10 second deadline. -/
def timesW : Nat → Int := fun i => (i : Int)

/-- Every attempt raises ConnectionFailure while issuing the first chunk. -/
def outsConnFailW : Nat → AttemptOutcome := fun _ => .failAt 0 .connectionFailure

/-- The first attempt raises ConnectionFailure at the second chunk, the
second attempt completes. -/
def outsRecoverW : Nat → AttemptOutcome := fun i =>
  if i = 0 then .failAt 1 .connectionFailure else .ok

/-- The first attempt raises a non-transient (validation-class) error. -/
def outsValidationW : Nat → AttemptOutcome := fun _ => .failAt 1 .otherError

/-- A concrete persisted group message with status sent. -/
def gmW : StoredMessage :=
  { from_user_id := "alice"
    type := "group"
    group_id := "g1"
    status := "sent"
    read_by := ["alice"]
    deleted_for := [] }

/-- A concrete persisted direct message with status sent. -/
def dmW : StoredMessage :=
  { from_user_id := "alice"
    type := "direct"
    group_id := ""
    status := "sent"
    read_by := ["alice"]
    deleted_for := [] }

/-- A concrete group created by alice with three members. -/
def grpW : Group :=
  { name := "g"
    member_ids := ["alice", "bob", "carol"]
    created_by := "alice" }

/-! Helper lemmas about the circuit breaker. -/

lemma record_failure_count (cb : CircuitBreaker) (t : Int) :
    (cb.record_failure t).failure_count = cb.failure_count + 1 := by
  unfold CircuitBreaker.record_failure
  dsimp only
  split <;> rfl

lemma record_failure_threshold (cb : CircuitBreaker) (t : Int) :
    (cb.record_failure t).failure_threshold = cb.failure_threshold := by
  unfold CircuitBreaker.record_failure
  dsimp only
  split <;> rfl

lemma record_failure_last (cb : CircuitBreaker) (t : Int) :
    (cb.record_failure t).last_failure_time = some t := by
  unfold CircuitBreaker.record_failure
  dsimp only
  split <;> rfl

lemma record_failure_is_open (cb : CircuitBreaker) (t : Int) :
    (cb.record_failure t).is_open =
      (cb.is_open || decide (cb.failure_count + 1 ≥ cb.failure_threshold)) := by
  unfold CircuitBreaker.record_failure
  by_cases h : cb.failure_count + 1 ≥ cb.failure_threshold <;> simp [h]

lemma failTimes_spec (ts : List Int) (c : CircuitBreaker)
    (hth : c.failure_threshold = 3)
    (hopen : c.is_open = decide (c.failure_count ≥ 3)) :
    (failTimes c ts).failure_count = c.failure_count + ts.length ∧
    (failTimes c ts).is_open = decide (c.failure_count + ts.length ≥ 3) ∧
    (failTimes c ts).failure_threshold = 3 := by
  induction ts generalizing c with
  | nil => simpa [failTimes] using ⟨hopen, hth⟩
  | cons t ts ih =>
    have hth' : (c.record_failure t).failure_threshold = 3 := by
      rw [record_failure_threshold, hth]
    have hopen' : (c.record_failure t).is_open =
        decide ((c.record_failure t).failure_count ≥ 3) := by
      rw [record_failure_is_open, record_failure_count, hopen, hth]
      by_cases h : c.failure_count ≥ 3
      · have h1 : c.failure_count + 1 ≥ 3 := by omega
        simp [h, h1]
      · simp [h]
    have hrec := ih (c.record_failure t) hth' hopen'
    have hstep : failTimes c (t :: ts) = failTimes (c.record_failure t) ts := rfl
    rw [hstep]
    refine ⟨?_, ?_, hrec.2.2⟩
    · rw [hrec.1, record_failure_count]
      simp [List.length_cons]
      omega
    · rw [hrec.2.1, record_failure_count]
      have : c.failure_count + 1 + ts.length = c.failure_count + (ts.length + 1) := by omega
      rw [this]
      rfl

lemma can_proceed_closed (cb : CircuitBreaker) (t : Int) (h : cb.is_open = false) :
    cb.can_proceed t = (cb, true) := by
  unfold CircuitBreaker.can_proceed
  simp [h]

lemma can_proceed_open_elapsed (cb : CircuitBreaker) (t tf : Int)
    (ho : cb.is_open = true) (hl : cb.last_failure_time = some tf)
    (hgt : t - tf > cb.reset_timeout) :
    cb.can_proceed t = ({ cb with failure_count := 0, is_open := false }, true) := by
  unfold CircuitBreaker.can_proceed
  simp [ho, hl, hgt]

lemma can_proceed_open_within (cb : CircuitBreaker) (t tf : Int)
    (ho : cb.is_open = true) (hl : cb.last_failure_time = some tf)
    (hle : ¬ t - tf > cb.reset_timeout) :
    cb.can_proceed t = (cb, false) := by
  unfold CircuitBreaker.can_proceed
  simp [ho, hl, hle]

lemma can_proceed_false_fst (cb : CircuitBreaker) (t : Int)
    (h : (cb.can_proceed t).2 = false) : (cb.can_proceed t).1 = cb := by
  unfold CircuitBreaker.can_proceed at h ⊢
  by_cases h1 : cb.is_open = false
  · simp [h1] at h
  · by_cases h2 : t - cb.last_failure_time.getD 0 > cb.reset_timeout <;> simp [h1, h2] at h ⊢

/-- C3: the circuit breaker opens exactly on the 3rd consecutive recorded
failure (record_failure increments failure_count and sets the open flag when
failure_count reaches 3, the threshold the buffer constructs it with);
record_success resets failure_count to 0 and clears the open flag; and while
open, can_proceed is false until more than 60 seconds have elapsed since the
last failure and true afterwards, whatever the prior failure count. -/
theorem C3_circuit_breaker (cb : CircuitBreaker) (ts : List Int) (t tf u : Int)
    (hth : cb.failure_threshold = 3) (hrt : cb.reset_timeout = 60) :
    ((cb.record_failure u).failure_count = cb.failure_count + 1) ∧
    ((cb.record_failure u).is_open =
      (cb.is_open || decide (cb.failure_count + 1 ≥ 3))) ∧
    ((failTimes cb.record_success ts).failure_count = ts.length) ∧
    ((failTimes cb.record_success ts).is_open = decide (ts.length ≥ 3)) ∧
    (cb.record_success.failure_count = 0) ∧
    (cb.record_success.is_open = false) ∧
    (cb.is_open = true → cb.last_failure_time = some tf →
      ((cb.can_proceed t).2 = true ↔ t - tf > 60)) := by
  have hth' : cb.record_success.failure_threshold = 3 := hth
  have hopen' : cb.record_success.is_open = decide (cb.record_success.failure_count ≥ 3) := by
    simp [CircuitBreaker.record_success]
  have hfold := failTimes_spec ts cb.record_success hth' hopen'
  refine ⟨record_failure_count cb u, ?_, ?_, ?_, rfl, rfl, ?_⟩
  · rw [record_failure_is_open, hth]
  · simpa [CircuitBreaker.record_success] using hfold.1
  · simpa [CircuitBreaker.record_success] using hfold.2.1
  · intro ho hl
    constructor
    · intro htrue
      by_contra hle
      have := can_proceed_open_within cb t tf ho hl (by rw [hrt]; exact hle)
      rw [this] at htrue
      exact Bool.false_ne_true htrue
    · intro hgt
      have := can_proceed_open_elapsed cb t tf ho hl (by rw [hrt]; exact hgt)
      rw [this]

/-- Witness for C3 at a concrete breaker and instants. -/
theorem C3_circuit_breaker_witness :
    (cbOpenW.failure_threshold = 3) ∧ (cbOpenW.reset_timeout = 60) ∧
    (cbOpenW.is_open = true) ∧ (cbOpenW.last_failure_time = some (100 : Int)) ∧
    ((cbOpenW.can_proceed 161).2 = true ↔ (161 : Int) - 100 > 60) :=
  ⟨rfl, rfl, rfl, rfl,
    (C3_circuit_breaker cbOpenW [] 161 100 0 rfl rfl).2.2.2.2.2.2 rfl rfl⟩

/-- C9: can_proceed is not a pure query.  On an open breaker whose cooldown
of 60 seconds has elapsed, a single can_proceed call resets failure_count to
0, clears the open flag and returns true, fully closing the breaker, so three
new consecutive failures are again needed to re-open it. -/
theorem C9_can_proceed_closes (cb : CircuitBreaker) (t tf : Int) (ts : List Int)
    (ho : cb.is_open = true) (hl : cb.last_failure_time = some tf)
    (hrt : cb.reset_timeout = 60) (hth : cb.failure_threshold = 3)
    (helapsed : t - tf > 60) :
    (cb.can_proceed t = ({ cb with failure_count := 0, is_open := false }, true)) ∧
    ((failTimes (cb.can_proceed t).1 ts).is_open = decide (ts.length ≥ 3)) ∧
    ((failTimes (cb.can_proceed t).1 ts).failure_count = ts.length) := by
  have hcp := can_proceed_open_elapsed cb t tf ho hl (by rw [hrt]; exact helapsed)
  have hfold := failTimes_spec ts ({ cb with failure_count := 0, is_open := false })
    hth (by simp)
  refine ⟨hcp, ?_, ?_⟩
  · rw [hcp]
    simpa using hfold.2.1
  · rw [hcp]
    simpa using hfold.1

/-- Witness for C9: the concrete open breaker, probed 61 seconds after its
last failure, then hit with two new failures: still closed. -/
theorem C9_can_proceed_closes_witness :
    (cbOpenW.is_open = true) ∧ ((161 : Int) - 100 > 60) ∧
    (cbOpenW.can_proceed 161 =
      ({ cbOpenW with failure_count := 0, is_open := false }, true)) ∧
    ((failTimes (cbOpenW.can_proceed 161).1 [200, 201]).is_open = decide ((2 : Nat) ≥ 3)) :=
  ⟨rfl, by decide,
    (C9_can_proceed_closes cbOpenW 161 100 [200, 201] rfl rfl rfl rfl (by decide)).1,
    (C9_can_proceed_closes cbOpenW 161 100 [200, 201] rfl rfl rfl rfl (by decide)).2.1⟩

/-! Helper lemmas about the executor body, the retry loop and flush. -/

lemma body_gate_false {M : Type} (cb : CircuitBreaker) (st : Stats) (t : Int)
    (msgs : List M) (out : AttemptOutcome)
    (h : (cb.can_proceed t).2 = false) :
    bulkInsertBody cb st t msgs out = (cb, st, [], .ret false) := by
  unfold bulkInsertBody
  dsimp only
  rw [if_pos h, can_proceed_false_fst cb t h]

lemma body_ok {M : Type} (cb : CircuitBreaker) (st : Stats) (t : Int)
    (msgs : List M) (h : (cb.can_proceed t).2 = true) :
    bulkInsertBody cb st t msgs .ok =
      ((cb.can_proceed t).1.record_success, st, chunksOf5 msgs, .ret true) := by
  unfold bulkInsertBody
  dsimp only
  rw [if_neg (by rw [h]; exact fun hc => Bool.noConfusion hc)]

lemma body_fail {M : Type} (cb : CircuitBreaker) (st : Stats) (t : Int)
    (msgs : List M) (j : Nat) (e : MongoError)
    (h : (cb.can_proceed t).2 = true) :
    bulkInsertBody cb st t msgs (.failAt j e) =
      ((cb.can_proceed t).1.record_failure t,
       { st with circuit_breaker_trips := st.circuit_breaker_trips + 1 },
       (chunksOf5 msgs).take j, .exc e) := by
  unfold bulkInsertBody
  dsimp only
  rw [if_neg (by rw [h]; exact fun hc => Bool.noConfusion hc)]

lemma body_exc_inv {M : Type} {cb : CircuitBreaker} {st : Stats} {t : Int}
    {msgs : List M} {out : AttemptOutcome} {cb1 : CircuitBreaker} {st1 : Stats}
    {sent1 : List (List M)} {e : MongoError}
    (hb : bulkInsertBody cb st t msgs out = (cb1, st1, sent1, .exc e)) :
    ∃ j, out = .failAt j e ∧ (cb.can_proceed t).2 = true ∧
      cb1 = (cb.can_proceed t).1.record_failure t ∧
      st1 = { st with circuit_breaker_trips := st.circuit_breaker_trips + 1 } ∧
      sent1 = (chunksOf5 msgs).take j := by
  rcases Bool.eq_false_or_eq_true ((cb.can_proceed t).2) with hg | hg
  · cases out with
    | ok =>
      rw [body_ok cb st t msgs hg] at hb
      simp at hb
    | failAt j e0 =>
      rw [body_fail cb st t msgs j e0 hg] at hb
      simp only [Prod.mk.injEq] at hb
      obtain ⟨hcb, hst, hsent, he⟩ := hb
      injection he with he0
      exact ⟨j, by rw [he0], hg, hcb.symm, hst.symm, hsent.symm⟩
  · rw [body_gate_false cb st t msgs out hg] at hb
    simp at hb

lemma body_failed_flushes {M : Type} (cb : CircuitBreaker) (st : Stats) (t : Int)
    (msgs : List M) (out : AttemptOutcome) :
    ((bulkInsertBody cb st t msgs out).2.1).failed_flushes = st.failed_flushes := by
  rcases Bool.eq_false_or_eq_true ((cb.can_proceed t).2) with hg | hg
  · cases out with
    | ok => rw [body_ok cb st t msgs hg]
    | failAt j e0 => rw [body_fail cb st t msgs j e0 hg]
  · rw [body_gate_false cb st t msgs out hg]

lemma backoffRun_two_step {M : Type} (cb : CircuitBreaker) (st : Stats)
    (sent : List (List M)) (start : Int) (times : Nat → Int)
    (outs : Nat → AttemptOutcome) (msgs : List M) (i : Nat) :
    backoffRun cb st sent start times outs msgs i 2 =
      (match bulkInsertBody cb st (times i) msgs (outs i) with
       | (cb1, st1, sentNow, .ret b) => ⟨cb1, st1, sent ++ sentNow, .ret b, i + 1⟩
       | (cb1, st1, sentNow, .exc e) =>
         if e.retriable = true ∧ 0 < 1 ∧ times (i + 1) - start < backoffMaxTime then
           backoffRun cb1 st1 (sent ++ sentNow) start times outs msgs (i + 1) 1
         else ⟨cb1, st1, sent ++ sentNow, .exc e, i + 1⟩) := rfl

lemma backoffRun_one_step {M : Type} (cb : CircuitBreaker) (st : Stats)
    (sent : List (List M)) (start : Int) (times : Nat → Int)
    (outs : Nat → AttemptOutcome) (msgs : List M) (i : Nat) :
    backoffRun cb st sent start times outs msgs i 1 =
      (match bulkInsertBody cb st (times i) msgs (outs i) with
       | (cb1, st1, sentNow, .ret b) => ⟨cb1, st1, sent ++ sentNow, .ret b, i + 1⟩
       | (cb1, st1, sentNow, .exc e) =>
         if e.retriable = true ∧ 0 < 0 ∧ times (i + 1) - start < backoffMaxTime then
           backoffRun cb1 st1 (sent ++ sentNow) start times outs msgs (i + 1) 0
         else ⟨cb1, st1, sent ++ sentNow, .exc e, i + 1⟩) := rfl

lemma run_first_ret {M : Type} {cb : CircuitBreaker} {st : Stats}
    {times : Nat → Int} {outs : Nat → AttemptOutcome} {msgs : List M}
    {cb1 : CircuitBreaker} {st1 : Stats} {sent1 : List (List M)} {b : Bool}
    (hb : bulkInsertBody cb st (times 0) msgs (outs 0) = (cb1, st1, sent1, .ret b)) :
    perform_bulk_insert cb st times outs msgs = ⟨cb1, st1, sent1, .ret b, 1⟩ := by
  show backoffRun cb st [] (times 0) times outs msgs 0 2 = _
  rw [backoffRun_two_step, hb]
  rfl

lemma run_first_exc_stop {M : Type} {cb : CircuitBreaker} {st : Stats}
    {times : Nat → Int} {outs : Nat → AttemptOutcome} {msgs : List M}
    {cb1 : CircuitBreaker} {st1 : Stats} {sent1 : List (List M)} {e : MongoError}
    (hb : bulkInsertBody cb st (times 0) msgs (outs 0) = (cb1, st1, sent1, .exc e))
    (hcond : ¬(e.retriable = true ∧ 0 < 1 ∧ times 1 - times 0 < backoffMaxTime)) :
    perform_bulk_insert cb st times outs msgs = ⟨cb1, st1, sent1, .exc e, 1⟩ := by
  show backoffRun cb st [] (times 0) times outs msgs 0 2 = _
  rw [backoffRun_two_step, hb]
  simp only [Nat.zero_add, List.nil_append]
  rw [if_neg hcond]

lemma run_retry {M : Type} {cb : CircuitBreaker} {st : Stats}
    {times : Nat → Int} {outs : Nat → AttemptOutcome} {msgs : List M}
    {cb1 cb2 : CircuitBreaker} {st1 st2 : Stats}
    {sent1 sent2 : List (List M)} {e : MongoError} {r2 : BodyResult}
    (hb0 : bulkInsertBody cb st (times 0) msgs (outs 0) = (cb1, st1, sent1, .exc e))
    (hret : e.retriable = true) (htime : times 1 - times 0 < backoffMaxTime)
    (hb1 : bulkInsertBody cb1 st1 (times 1) msgs (outs 1) = (cb2, st2, sent2, r2)) :
    perform_bulk_insert cb st times outs msgs = ⟨cb2, st2, sent1 ++ sent2, r2, 2⟩ := by
  show backoffRun cb st [] (times 0) times outs msgs 0 2 = _
  rw [backoffRun_two_step, hb0]
  simp only [Nat.zero_add, List.nil_append]
  rw [if_pos ⟨hret, Nat.zero_lt_one, htime⟩]
  rw [backoffRun_one_step, hb1]
  cases r2 with
  | ret b => rfl
  | exc e2 =>
    dsimp only
    rw [if_neg (fun hc => absurd hc.2.1 (Nat.lt_irrefl 0))]

lemma perform_failed_flushes {M : Type} (cb : CircuitBreaker) (st : Stats)
    (times : Nat → Int) (outs : Nat → AttemptOutcome) (msgs : List M) :
    (perform_bulk_insert cb st times outs msgs).stats.failed_flushes =
      st.failed_flushes := by
  rcases hb0 : bulkInsertBody cb st (times 0) msgs (outs 0) with ⟨cb1, st1, sent1, r0⟩
  have h1 : st1.failed_flushes = st.failed_flushes := by
    have := body_failed_flushes cb st (times 0) msgs (outs 0)
    rw [hb0] at this
    exact this
  cases r0 with
  | ret b => rw [run_first_ret hb0]; exact h1
  | exc e =>
    by_cases hcond : e.retriable = true ∧ 0 < 1 ∧ times 1 - times 0 < backoffMaxTime
    · rcases hb1 : bulkInsertBody cb1 st1 (times 1) msgs (outs 1) with ⟨cb2, st2, sent2, r2⟩
      have h2 : st2.failed_flushes = st1.failed_flushes := by
        have := body_failed_flushes cb1 st1 (times 1) msgs (outs 1)
        rw [hb1] at this
        exact this
      rw [run_retry hb0 hcond.1 hcond.2.2 hb1]
      rw [show (⟨cb2, st2, sent1 ++ sent2, r2, 2⟩ : RunResult M).stats = st2 from rfl, h2, h1]
    · rw [run_first_exc_stop hb0 hcond]
      exact h1

lemma flush_ret_true {M : Type} (buf : MessageBuffer M)
    (times : Nat → Int) (outs : Nat → AttemptOutcome)
    (hne : buf.messages.isEmpty = false)
    (hr : (perform_bulk_insert buf.circuit_breaker buf.stats times outs buf.messages).result =
      .ret true) :
    buf.flush times outs =
      ({ buf with
          messages := [],
          circuit_breaker :=
            (perform_bulk_insert buf.circuit_breaker buf.stats times outs buf.messages).cb,
          stats := { (perform_bulk_insert buf.circuit_breaker buf.stats times outs buf.messages).stats with
            successful_flushes :=
              (perform_bulk_insert buf.circuit_breaker buf.stats times outs buf.messages).stats.successful_flushes + 1 } },
       (perform_bulk_insert buf.circuit_breaker buf.stats times outs buf.messages).sent) := by
  unfold MessageBuffer.flush
  dsimp only
  rw [if_neg (by rw [hne]; exact fun hc => Bool.noConfusion hc), hr]

lemma flush_ret_false {M : Type} (buf : MessageBuffer M)
    (times : Nat → Int) (outs : Nat → AttemptOutcome)
    (hne : buf.messages.isEmpty = false)
    (hr : (perform_bulk_insert buf.circuit_breaker buf.stats times outs buf.messages).result =
      .ret false) :
    buf.flush times outs =
      ({ buf with
          messages := buf.messages,
          circuit_breaker :=
            (perform_bulk_insert buf.circuit_breaker buf.stats times outs buf.messages).cb,
          stats := { (perform_bulk_insert buf.circuit_breaker buf.stats times outs buf.messages).stats with
            failed_flushes :=
              (perform_bulk_insert buf.circuit_breaker buf.stats times outs buf.messages).stats.failed_flushes + 1 } },
       (perform_bulk_insert buf.circuit_breaker buf.stats times outs buf.messages).sent) := by
  unfold MessageBuffer.flush
  dsimp only
  rw [if_neg (by rw [hne]; exact fun hc => Bool.noConfusion hc), hr]
  rfl

lemma flush_exc {M : Type} (buf : MessageBuffer M)
    (times : Nat → Int) (outs : Nat → AttemptOutcome) (e : MongoError)
    (hne : buf.messages.isEmpty = false)
    (hr : (perform_bulk_insert buf.circuit_breaker buf.stats times outs buf.messages).result =
      .exc e) :
    buf.flush times outs =
      ({ buf with
          messages := buf.messages,
          circuit_breaker :=
            (perform_bulk_insert buf.circuit_breaker buf.stats times outs buf.messages).cb,
          stats := { (perform_bulk_insert buf.circuit_breaker buf.stats times outs buf.messages).stats with
            failed_flushes :=
              (perform_bulk_insert buf.circuit_breaker buf.stats times outs buf.messages).stats.failed_flushes + 1 },
          batch_size := max 10 (buf.batch_size / 2) },
       (perform_bulk_insert buf.circuit_breaker buf.stats times outs buf.messages).sent) := by
  unfold MessageBuffer.flush
  dsimp only
  rw [if_neg (by rw [hne]; exact fun hc => Bool.noConfusion hc), hr]
  rfl

/-- C2: when the persistence attempt of a flush fails by an exception (the
executor raises after exhausting its retries), every record of the flushed
snapshot reappears in the pending list (the restored list is exactly the
snapshot, so nothing is lost), the failed_flushes counter increments by
exactly one, and batch_size is halved with a floor of 10. -/
theorem C2_failed_flush_restores_and_shrinks {M : Type} (buf : MessageBuffer M)
    (times : Nat → Int) (outs : Nat → AttemptOutcome) (e : MongoError)
    (hne : buf.messages.isEmpty = false)
    (hexc : (perform_bulk_insert buf.circuit_breaker buf.stats times outs buf.messages).result =
      .exc e) :
    ((buf.flush times outs).1.messages = buf.messages) ∧
    ((buf.flush times outs).1.stats.failed_flushes = buf.stats.failed_flushes + 1) ∧
    ((buf.flush times outs).1.batch_size = max 10 (buf.batch_size / 2)) ∧
    (10 ≤ (buf.flush times outs).1.batch_size) := by
  have hfl := flush_exc buf times outs e hne hexc
  rw [hfl]
  refine ⟨rfl, ?_, rfl, ?_⟩
  · show (perform_bulk_insert buf.circuit_breaker buf.stats times outs
      buf.messages).stats.failed_flushes + 1 = buf.stats.failed_flushes + 1
    rw [perform_failed_flushes]
  · show 10 ≤ max 10 (buf.batch_size / 2)
    exact le_max_left 10 _

/-- Witness for C2: the global buffer holding ten records, every attempt
raising ConnectionFailure; both attempts fail inside the deadline, the ten
records are restored, failed_flushes goes from 0 to 1, and batch_size stays
at the floor 10. -/
theorem C2_failed_flush_restores_and_shrinks_witness :
    (bufTenW.messages.isEmpty = false) ∧
    ((perform_bulk_insert bufTenW.circuit_breaker bufTenW.stats timesW outsConnFailW
        bufTenW.messages).result = .exc .connectionFailure) ∧
    (((bufTenW.flush timesW outsConnFailW).1.messages = bufTenW.messages) ∧
     ((bufTenW.flush timesW outsConnFailW).1.stats.failed_flushes =
        bufTenW.stats.failed_flushes + 1) ∧
     ((bufTenW.flush timesW outsConnFailW).1.batch_size = max 10 (bufTenW.batch_size / 2)) ∧
     (10 ≤ (bufTenW.flush timesW outsConnFailW).1.batch_size)) :=
  ⟨by decide, by decide,
    C2_failed_flush_restores_and_shrinks bufTenW timesW outsConnFailW .connectionFailure
      (by decide) (by decide)⟩

/-- C4: a flush attempted while can_proceed is false returns failure
immediately: a single attempt, no chunk issued to the store, the snapshot
requeued into the pending list unchanged, and the breaker (in particular its
failure_count) untouched. -/
theorem C4_breaker_open_load_shed {M : Type} (buf : MessageBuffer M)
    (times : Nat → Int) (outs : Nat → AttemptOutcome)
    (hne : buf.messages.isEmpty = false)
    (hfalse : (buf.circuit_breaker.can_proceed (times 0)).2 = false) :
    ((perform_bulk_insert buf.circuit_breaker buf.stats times outs buf.messages).result =
      .ret false) ∧
    ((perform_bulk_insert buf.circuit_breaker buf.stats times outs buf.messages).attempts = 1) ∧
    ((perform_bulk_insert buf.circuit_breaker buf.stats times outs buf.messages).sent = []) ∧
    ((buf.flush times outs).2 = []) ∧
    ((buf.flush times outs).1.messages = buf.messages) ∧
    ((buf.flush times outs).1.circuit_breaker = buf.circuit_breaker) ∧
    ((buf.flush times outs).1.circuit_breaker.failure_count =
      buf.circuit_breaker.failure_count) ∧
    ((buf.flush times outs).1.batch_size = buf.batch_size) := by
  have hb := body_gate_false buf.circuit_breaker buf.stats (times 0) buf.messages (outs 0) hfalse
  have hrun : perform_bulk_insert buf.circuit_breaker buf.stats times outs buf.messages =
      ⟨buf.circuit_breaker, buf.stats, [], .ret false, 1⟩ := run_first_ret hb
  have hfl := flush_ret_false buf times outs hne (by rw [hrun])
  refine ⟨by rw [hrun], by rw [hrun], by rw [hrun], ?_, ?_, ?_, ?_, ?_⟩
  · rw [hfl, hrun]
  · rw [hfl]
  · rw [hfl, hrun]
  · rw [hfl, hrun]
  · rw [hfl]

/-- Witness for C4: buffer with an open breaker 20 seconds after its last
failure (cooldown 60 not elapsed at any probe time used). -/
theorem C4_breaker_open_load_shed_witness :
    (bufOpenW.messages.isEmpty = false) ∧
    ((bufOpenW.circuit_breaker.can_proceed (timesW 0)).2 = false) ∧
    (((perform_bulk_insert bufOpenW.circuit_breaker bufOpenW.stats timesW outsConnFailW
        bufOpenW.messages).result = .ret false) ∧
     ((perform_bulk_insert bufOpenW.circuit_breaker bufOpenW.stats timesW outsConnFailW
        bufOpenW.messages).attempts = 1) ∧
     ((perform_bulk_insert bufOpenW.circuit_breaker bufOpenW.stats timesW outsConnFailW
        bufOpenW.messages).sent = []) ∧
     ((bufOpenW.flush timesW outsConnFailW).2 = []) ∧
     ((bufOpenW.flush timesW outsConnFailW).1.messages = bufOpenW.messages) ∧
     ((bufOpenW.flush timesW outsConnFailW).1.circuit_breaker = bufOpenW.circuit_breaker) ∧
     ((bufOpenW.flush timesW outsConnFailW).1.circuit_breaker.failure_count =
        bufOpenW.circuit_breaker.failure_count) ∧
     ((bufOpenW.flush timesW outsConnFailW).1.batch_size = bufOpenW.batch_size)) :=
  ⟨by decide, by decide,
    C4_breaker_open_load_shed bufOpenW timesW outsConnFailW (by decide) (by decide)⟩

/-- C5: the decorated bulk insert makes at most 2 attempts; a second attempt
happens only for a transient-class exception raised inside the 10 second
deadline; a non-transient exception on a proceeding first attempt propagates
immediately with no retry; and any exception that escapes the retry loop
leaves the breaker with record_failure applied at the last attempt and the
trips counter incremented, the exception reaching the caller (flush). -/
theorem C5_bounded_retry_policy {M : Type} (cb : CircuitBreaker) (st : Stats)
    (times : Nat → Int) (outs : Nat → AttemptOutcome) (msgs : List M) :
    ((perform_bulk_insert cb st times outs msgs).attempts ≤ 2) ∧
    ((perform_bulk_insert cb st times outs msgs).attempts = 2 →
      ∃ j e, outs 0 = .failAt j e ∧ e.retriable = true ∧
        times 1 - times 0 < backoffMaxTime) ∧
    (∀ j e, outs 0 = .failAt j e → e.retriable = false →
      (cb.can_proceed (times 0)).2 = true →
      (perform_bulk_insert cb st times outs msgs).result = .exc e ∧
      (perform_bulk_insert cb st times outs msgs).attempts = 1) ∧
    (∀ e, (perform_bulk_insert cb st times outs msgs).result = .exc e →
      (∃ cbPre : CircuitBreaker, (perform_bulk_insert cb st times outs msgs).cb =
        cbPre.record_failure
          (times ((perform_bulk_insert cb st times outs msgs).attempts - 1))) ∧
      st.circuit_breaker_trips + 1 ≤
        (perform_bulk_insert cb st times outs msgs).stats.circuit_breaker_trips) := by
  rcases hb0 : bulkInsertBody cb st (times 0) msgs (outs 0) with ⟨cb1, st1, sent1, r0⟩
  cases r0 with
  | ret b =>
    have hrun := run_first_ret hb0
    rw [hrun]
    refine ⟨by show (1 : Nat) ≤ 2; omega, ?_, ?_, ?_⟩
    · intro h2
      simp at h2
    · intro j e hj he hg
      rw [hj, body_fail cb st (times 0) msgs j e hg] at hb0
      simp at hb0
    · intro e he
      simp at he
  | exc e0 =>
    obtain ⟨j0, hout0, hg0, hcb1, hst1, hsent1⟩ := body_exc_inv hb0
    by_cases hcond : e0.retriable = true ∧ 0 < 1 ∧ times 1 - times 0 < backoffMaxTime
    · rcases hb1 : bulkInsertBody cb1 st1 (times 1) msgs (outs 1) with ⟨cb2, st2, sent2, r2⟩
      have hrun := run_retry hb0 hcond.1 hcond.2.2 hb1
      rw [hrun]
      refine ⟨by show (2 : Nat) ≤ 2; omega, ?_, ?_, ?_⟩
      · intro _
        exact ⟨j0, e0, hout0, hcond.1, hcond.2.2⟩
      · intro j e hj he hg
        have heq : AttemptOutcome.failAt j e = .failAt j0 e0 := hj.symm.trans hout0
        injection heq with hje hee
        exact absurd (hee ▸ he) (by rw [hcond.1]; exact fun hc => Bool.noConfusion hc)
      · intro e he
        cases r2 with
        | ret b => simp at he
        | exc e2 =>
          obtain ⟨j1, hout1, hg1, hcb2, hst2, hsent2⟩ := body_exc_inv hb1
          refine ⟨⟨(cb1.can_proceed (times 1)).1, ?_⟩, ?_⟩
          · show cb2 = (cb1.can_proceed (times 1)).1.record_failure (times (2 - 1))
            exact hcb2
          · show st.circuit_breaker_trips + 1 ≤ st2.circuit_breaker_trips
            rw [hst2, hst1]
            simp
    · have hrun := run_first_exc_stop hb0 hcond
      rw [hrun]
      refine ⟨by show (1 : Nat) ≤ 2; omega, ?_, ?_, ?_⟩
      · intro h2
        simp at h2
      · intro j e hj he hg
        have heq : AttemptOutcome.failAt j e = .failAt j0 e0 := hj.symm.trans hout0
        injection heq with hje hee
        subst hee
        exact ⟨rfl, rfl⟩
      · intro e he
        have hee : e0 = e := by simpa using he
        subst hee
        refine ⟨⟨(cb.can_proceed (times 0)).1, ?_⟩, ?_⟩
        · show cb1 = (cb.can_proceed (times 0)).1.record_failure (times (1 - 1))
          exact hcb1
        · show st.circuit_breaker_trips + 1 ≤ st1.circuit_breaker_trips
          rw [hst1]

/-- Witness for C5, exercising the no-retry branch: a validation-class error
on a proceeding first attempt propagates immediately after one attempt. -/
theorem C5_bounded_retry_policy_witness :
    (outsValidationW 0 = .failAt 1 .otherError) ∧
    (MongoError.otherError.retriable = false) ∧
    (((message_buffer Nat).circuit_breaker.can_proceed (timesW 0)).2 = true) ∧
    (((perform_bulk_insert (message_buffer Nat).circuit_breaker (message_buffer Nat).stats
        timesW outsValidationW [1, 2, 3]).result = .exc .otherError) ∧
     ((perform_bulk_insert (message_buffer Nat).circuit_breaker (message_buffer Nat).stats
        timesW outsValidationW [1, 2, 3]).attempts = 1)) :=
  ⟨rfl, rfl, by decide,
    (C5_bounded_retry_policy (message_buffer Nat).circuit_breaker (message_buffer Nat).stats
      timesW outsValidationW [1, 2, 3]).2.2.1 1 .otherError rfl rfl (by decide)⟩

/-- C10: every failed individual bulk-insert attempt, including one later
recovered by a successful retry, applies record_failure (incrementing
failure_count) and increments the circuit_breaker_trips stats counter; a
flush whose two attempts both fail contributes two failures toward the
opening threshold, and trips counts failed attempts, not breaker openings. -/
theorem C10_trips_count_failed_attempts {M : Type} (cb : CircuitBreaker) (st : Stats)
    (times : Nat → Int) (outs : Nat → AttemptOutcome) (msgs : List M)
    (j j' : Nat) (e e' : MongoError)
    (hclosed : cb.is_open = false) :
    (bulkInsertBody cb st (times 0) msgs (.failAt j e) =
      (cb.record_failure (times 0),
       { st with circuit_breaker_trips := st.circuit_breaker_trips + 1 },
       (chunksOf5 msgs).take j, .exc e)) ∧
    ((cb.record_failure (times 0)).failure_count = cb.failure_count + 1) ∧
    (outs 0 = .failAt j e → e.retriable = true →
      times 1 - times 0 < backoffMaxTime →
      cb.failure_count + 1 < cb.failure_threshold →
      outs 1 = .failAt j' e' →
      ((perform_bulk_insert cb st times outs msgs).attempts = 2) ∧
      ((perform_bulk_insert cb st times outs msgs).cb.failure_count =
        cb.failure_count + 2) ∧
      ((perform_bulk_insert cb st times outs msgs).stats.circuit_breaker_trips =
        st.circuit_breaker_trips + 2) ∧
      ((perform_bulk_insert cb st times outs msgs).result = .exc e')) ∧
    (outs 0 = .failAt j e → e.retriable = true →
      times 1 - times 0 < backoffMaxTime →
      cb.failure_count + 1 < cb.failure_threshold →
      outs 1 = .ok →
      ((perform_bulk_insert cb st times outs msgs).result = .ret true) ∧
      ((perform_bulk_insert cb st times outs msgs).stats.circuit_breaker_trips =
        st.circuit_breaker_trips + 1) ∧
      ((perform_bulk_insert cb st times outs msgs).cb.failure_count = 0)) := by
  have hcp0 := can_proceed_closed cb (times 0) hclosed
  have hg0 : (cb.can_proceed (times 0)).2 = true := by rw [hcp0]
  have hpart1 : bulkInsertBody cb st (times 0) msgs (.failAt j e) =
      (cb.record_failure (times 0),
       { st with circuit_breaker_trips := st.circuit_breaker_trips + 1 },
       (chunksOf5 msgs).take j, .exc e) := by
    rw [body_fail cb st (times 0) msgs j e hg0, hcp0]
  refine ⟨hpart1, record_failure_count cb (times 0), ?_, ?_⟩
  · intro hout0 hret htime hlt hout1
    have hcb1open : (cb.record_failure (times 0)).is_open = false := by
      rw [record_failure_is_open, hclosed]
      simp only [Bool.false_or]
      exact decide_eq_false (by omega)
    have hcp1 := can_proceed_closed (cb.record_failure (times 0)) (times 1) hcb1open
    have hg1 : ((cb.record_failure (times 0)).can_proceed (times 1)).2 = true := by rw [hcp1]
    have hb0 : bulkInsertBody cb st (times 0) msgs (outs 0) =
        (cb.record_failure (times 0),
         { st with circuit_breaker_trips := st.circuit_breaker_trips + 1 },
         (chunksOf5 msgs).take j, .exc e) := by rw [hout0]; exact hpart1
    have hb1 : bulkInsertBody (cb.record_failure (times 0))
        { st with circuit_breaker_trips := st.circuit_breaker_trips + 1 }
        (times 1) msgs (outs 1) =
        ((cb.record_failure (times 0)).record_failure (times 1),
         { st with circuit_breaker_trips := st.circuit_breaker_trips + 1 + 1 },
         (chunksOf5 msgs).take j', .exc e') := by
      rw [hout1, body_fail _ _ (times 1) msgs j' e' hg1, hcp1]
    have hrun := run_retry hb0 hret htime hb1
    rw [hrun]
    refine ⟨rfl, ?_, rfl, rfl⟩
    show ((cb.record_failure (times 0)).record_failure (times 1)).failure_count =
      cb.failure_count + 2
    rw [record_failure_count, record_failure_count]
  · intro hout0 hret htime hlt hout1
    have hcb1open : (cb.record_failure (times 0)).is_open = false := by
      rw [record_failure_is_open, hclosed]
      simp only [Bool.false_or]
      exact decide_eq_false (by omega)
    have hcp1 := can_proceed_closed (cb.record_failure (times 0)) (times 1) hcb1open
    have hg1 : ((cb.record_failure (times 0)).can_proceed (times 1)).2 = true := by rw [hcp1]
    have hb0 : bulkInsertBody cb st (times 0) msgs (outs 0) =
        (cb.record_failure (times 0),
         { st with circuit_breaker_trips := st.circuit_breaker_trips + 1 },
         (chunksOf5 msgs).take j, .exc e) := by rw [hout0]; exact hpart1
    have hb1 : bulkInsertBody (cb.record_failure (times 0))
        { st with circuit_breaker_trips := st.circuit_breaker_trips + 1 }
        (times 1) msgs (outs 1) =
        ((cb.record_failure (times 0)).record_success,
         { st with circuit_breaker_trips := st.circuit_breaker_trips + 1 },
         chunksOf5 msgs, .ret true) := by
      rw [hout1, body_ok _ _ (times 1) msgs hg1, hcp1]
    have hrun := run_retry hb0 hret htime hb1
    rw [hrun]
    exact ⟨rfl, rfl, rfl⟩

/-- Witness for C10: the fresh breaker of the global buffer, both attempts
failing with ConnectionFailure: two failures counted, two trips, breaker
still closed below the threshold. -/
theorem C10_trips_count_failed_attempts_witness :
    ((message_buffer Nat).circuit_breaker.is_open = false) ∧
    (outsConnFailW 0 = .failAt 0 .connectionFailure) ∧
    (MongoError.connectionFailure.retriable = true) ∧
    (timesW 1 - timesW 0 < backoffMaxTime) ∧
    ((message_buffer Nat).circuit_breaker.failure_count + 1 <
      (message_buffer Nat).circuit_breaker.failure_threshold) ∧
    (((perform_bulk_insert (message_buffer Nat).circuit_breaker (message_buffer Nat).stats
        timesW outsConnFailW [1, 2, 3]).attempts = 2) ∧
     ((perform_bulk_insert (message_buffer Nat).circuit_breaker (message_buffer Nat).stats
        timesW outsConnFailW [1, 2, 3]).cb.failure_count =
        (message_buffer Nat).circuit_breaker.failure_count + 2) ∧
     ((perform_bulk_insert (message_buffer Nat).circuit_breaker (message_buffer Nat).stats
        timesW outsConnFailW [1, 2, 3]).stats.circuit_breaker_trips =
        (message_buffer Nat).stats.circuit_breaker_trips + 2) ∧
     ((perform_bulk_insert (message_buffer Nat).circuit_breaker (message_buffer Nat).stats
        timesW outsConnFailW [1, 2, 3]).result = .exc .connectionFailure)) :=
  ⟨rfl, rfl, rfl, by decide, by decide,
    (C10_trips_count_failed_attempts (message_buffer Nat).circuit_breaker
      (message_buffer Nat).stats timesW outsConnFailW [1, 2, 3] 0 0
      .connectionFailure .connectionFailure rfl).2.2.1 rfl rfl (by decide) (by decide) rfl⟩

/-- C1 concerns a code bug.  The claim (and the spec scenario it cites)
expects the 10th add on the global buffer (batch_size 10) to fire a
synchronous flush, leaving the buffer empty and the store holding two chunks
of 5.  In the code, add_message executes inside async with self.lock and
calls await self.flush(), whose own async with self.lock can never acquire
the non-reentrant asyncio.Lock held by the same task: the 10th add blocks
forever with all 10 records still pending and no store I/O.  This theorem
evaluates the embedded code at that input: 9 adds stay below the threshold
(9 records held, no flush), and the 10th add reaches the deadlock with 10
records still in the buffer and zero flushes recorded. -/
theorem C1_size_trigger_add_deadlocks :
    (addOutcomeIsDeadlock (addAll (message_buffer Nat) (List.range 9)) = false) ∧
    ((addOutcomeBuf (addAll (message_buffer Nat) (List.range 9))).messages.length = 9) ∧
    ((addOutcomeBuf (addAll (message_buffer Nat) (List.range 9))).stats.total_messages = 9) ∧
    ((addOutcomeBuf (addAll (message_buffer Nat) (List.range 9))).stats.successful_flushes
      = 0) ∧
    (addOutcomeIsDeadlock (addAll (message_buffer Nat) (List.range 10)) = true) ∧
    ((addOutcomeBuf (addAll (message_buffer Nat) (List.range 10))).messages.length = 10) ∧
    ((addOutcomeBuf (addAll (message_buffer Nat) (List.range 10))).stats.successful_flushes
      = 0) := by
  decide

/-- C6: starting from the global buffer (batch_size 10), after any sequence
of flushes (whose failures halve batch_size with floor 10) and scheduler
iterations (whose growth step adds 5 capped at 50), batch_size stays in
[10, 50]. -/
theorem C6_batch_size_bounds (M : Type) (evs : List BufferEvent) :
    10 ≤ (runEvents (message_buffer M) evs).batch_size ∧
    (runEvents (message_buffer M) evs).batch_size ≤ 50 := by
  have hflush : ∀ (buf : MessageBuffer M) (times : Nat → Int) (outs : Nat → AttemptOutcome),
      (buf.flush times outs).1.batch_size = buf.batch_size ∨
      (buf.flush times outs).1.batch_size = max 10 (buf.batch_size / 2) := by
    intro buf times outs
    rcases Bool.eq_false_or_eq_true buf.messages.isEmpty with hne | hne
    · left
      unfold MessageBuffer.flush
      rw [if_pos hne]
    · rcases hr : (perform_bulk_insert buf.circuit_breaker buf.stats times outs
          buf.messages).result with b | e
      · cases b
        · rw [flush_ret_false buf times outs hne hr]
          left
          rfl
        · rw [flush_ret_true buf times outs hne hr]
          left
          rfl
      · rw [flush_exc buf times outs e hne hr]
        right
        rfl
  have hstep : ∀ (buf : MessageBuffer M) (ev : BufferEvent),
      10 ≤ buf.batch_size → buf.batch_size ≤ 50 →
      10 ≤ (applyEvent buf ev).batch_size ∧ (applyEvent buf ev).batch_size ≤ 50 := by
    intro buf ev h10 h50
    cases ev with
    | flushEv times outs =>
      rcases hflush buf times outs with h | h <;> rw [applyEvent, h] <;> constructor <;> omega
    | schedEv now times outs =>
      rw [applyEvent]
      unfold MessageBuffer.periodic_flush_step
      dsimp only
      rcases Bool.eq_false_or_eq_true ((buf.circuit_breaker.can_proceed now).2) with hg | hg
      · rw [if_pos hg]
        have h' : ({ buf with circuit_breaker := (buf.circuit_breaker.can_proceed now).1 } :
            MessageBuffer M).batch_size = buf.batch_size := rfl
        rcases hflush { buf with circuit_breaker := (buf.circuit_breaker.can_proceed now).1 }
          times outs with h | h <;>
          rw [h'] at h <;>
          split <;>
          (try dsimp only) <;>
          rw [h] <;>
          omega
      · rw [if_neg (by rw [hg]; exact fun hc => Bool.noConfusion hc)]
        exact ⟨h10, h50⟩
  have hrun : ∀ (evs : List BufferEvent) (buf : MessageBuffer M),
      10 ≤ buf.batch_size → buf.batch_size ≤ 50 →
      10 ≤ (runEvents buf evs).batch_size ∧ (runEvents buf evs).batch_size ≤ 50 := by
    intro evs
    induction evs with
    | nil => intro buf h10 h50; exact ⟨h10, h50⟩
    | cons ev evs ih =>
      intro buf h10 h50
      have h := hstep buf ev h10 h50
      exact ih (applyEvent buf ev) h.1 h.2
  have hb : (message_buffer M).batch_size = 10 := rfl
  exact hrun evs (message_buffer M) (by rw [hb]) (by rw [hb]; omega)

/-! Helper lemmas about addToSet. -/

lemma mem_addToSet (l : List String) (u : String) : u ∈ addToSet l u := by
  unfold addToSet
  split
  · assumption
  · simp

lemma addToSet_of_mem (l : List String) (u : String) (h : u ∈ l) : addToSet l u = l := by
  unfold addToSet
  rw [if_pos h]

lemma addToSet_idem (l : List String) (u : String) :
    addToSet (addToSet l u) u = addToSet l u :=
  addToSet_of_mem _ _ (mem_addToSet l u)

lemma addToSet_count (l : List String) (u : String) (h : u ∉ l) :
    (addToSet l u).count u = 1 := by
  unfold addToSet
  rw [if_neg h]
  simp [List.count_append, List.count_eq_zero_of_not_mem h]

/-- C7 counterexample: the claim says status is set to "read" for direct
messages only, but the update document of mark_read applies
set status = "read" unconditionally; on the concrete persisted group message
gmW (type "group", status "sent"), marking it read flips status to "read". -/
theorem C7_counterexample :
    (gmW.type = "group") ∧ (gmW.status = "sent") ∧
    ((gmW.mark_read ("bob")).1.status = "read") := by
  decide

/-- C7 amended: the reader id is added to read_by with idempotent set
semantics (adding it twice leaves one copy), the status is set to "read"
unconditionally (for group messages as well as direct ones), and the
read-receipt update is broadcast to the group room for group messages and to
the user room of the sender for direct messages. -/
theorem C7_read_receipt_amended (m : StoredMessage) (u : String) :
    ((m.mark_read u).1.status = "read") ∧
    (u ∈ (m.mark_read u).1.read_by) ∧
    (((m.mark_read u).1.mark_read u).1.read_by = (m.mark_read u).1.read_by) ∧
    (u ∉ m.read_by → ((m.mark_read u).1.read_by.count u = 1)) ∧
    ((m.mark_read u).2 =
      if m.type = "group" then "group_" ++ m.group_id else "user_" ++ m.from_user_id) := by
  refine ⟨rfl, mem_addToSet m.read_by u, ?_, ?_, rfl⟩
  · show addToSet (addToSet m.read_by u) u = addToSet m.read_by u
    exact addToSet_idem m.read_by u
  · intro h
    show (addToSet m.read_by u).count u = 1
    exact addToSet_count m.read_by u h

/-- Witness for C7 amended on the concrete direct message: applying the
reader id bob (not yet a reader) yields status "read" and exactly one copy of
bob in read_by. -/
theorem C7_read_receipt_amended_witness :
    (("bob" : String) ∉ dmW.read_by) ∧
    ((dmW.mark_read ("bob")).1.status = "read") ∧
    ((dmW.mark_read ("bob")).1.read_by.count ("bob") = 1) :=
  ⟨by decide, (C7_read_receipt_amended dmW ("bob")).1,
    (C7_read_receipt_amended dmW ("bob")).2.2.2.1 (by decide)⟩

/-- C8 counterexample: the claim says a group-delete request from any caller
other than the creator is rejected; the delete route carries no caller
identity at all, so the request of caller bob (not the creator alice) runs
the same code and deletes the group. -/
theorem C8_counterexample :
    (grpW.created_by = "alice") ∧ (("bob" : String) ≠ "alice") ∧
    ((delete_group_request ("bob") (some grpW)).1 = DeleteGroupResult.deleted) ∧
    ((delete_group_request ("bob") (some grpW)).2 = none) := by
  decide

/-- C8 amended: forced removal (admin_id supplied) is rejected unless
admin_id is the creator, a non-creator member may remove only themselves and
the creator cannot self-leave; group deletion, however, performs no
authorization check at all: a request by any caller deletes the group. -/
theorem C8_group_ownership_amended (grp : Group) (caller uid a : String) :
    ((delete_group_request caller (some grp)).1 = DeleteGroupResult.deleted) ∧
    (uid ∈ grp.member_ids → a ≠ grp.created_by →
      remove_from_group (some grp) uid (some a) =
        (.onlyCreatorCanRemove, some grp)) ∧
    (uid ∈ grp.member_ids → a = grp.created_by →
      remove_from_group (some grp) uid (some a) =
        (.removed a,
         some { grp with member_ids := grp.member_ids.filter (fun x => x != uid) })) ∧
    (uid ∈ grp.member_ids → uid ≠ grp.created_by →
      remove_from_group (some grp) uid none =
        (.removed uid,
         some { grp with member_ids := grp.member_ids.filter (fun x => x != uid) })) ∧
    (grp.created_by ∈ grp.member_ids →
      remove_from_group (some grp) grp.created_by none =
        (.creatorCannotLeave, some grp)) := by
  refine ⟨rfl, ?_, ?_, ?_, ?_⟩
  · intro hmem hne
    unfold remove_from_group
    try dsimp only
    rw [if_pos hmem]
    try dsimp only
    rw [if_neg hne]
  · intro hmem heq
    unfold remove_from_group
    try dsimp only
    rw [if_pos hmem]
    try dsimp only
    rw [if_pos heq]
  · intro hmem hne
    unfold remove_from_group
    try dsimp only
    rw [if_pos hmem]
    try dsimp only
    rw [if_neg hne]
  · intro hmem
    unfold remove_from_group
    try dsimp only
    rw [if_pos hmem]
    try dsimp only
    rw [if_pos rfl]

/-- Witness for C8 amended on the concrete group: carol (not the creator)
cannot forcibly remove bob, while bob can remove himself. -/
theorem C8_group_ownership_amended_witness :
    (("bob" : String) ∈ grpW.member_ids) ∧
    (("carol" : String) ≠ grpW.created_by) ∧
    (remove_from_group (some grpW) ("bob") (some ("carol")) =
      (.onlyCreatorCanRemove, some grpW)) ∧
    (("bob" : String) ≠ grpW.created_by) ∧
    (remove_from_group (some grpW) ("bob") none =
      (.removed ("bob"),
       some { grpW with member_ids := grpW.member_ids.filter (fun x => x != "bob") })) :=
  ⟨by decide, by decide,
    (C8_group_ownership_amended grpW ("x") ("bob") ("carol")).2.1 (by decide) (by decide),
    by decide,
    (C8_group_ownership_amended grpW ("x") ("bob") ("carol")).2.2.2.1 (by decide) (by decide)⟩

end Chatapp
